import Mathlib

/-!
Verification development for the TikTok downloader bot (`main.py`).

The core pipeline is embedded shallowly:
* a `JSON` value model for decoded provider payloads, with Python dict
  semantics (`dict.get` on a non-dict raises `AttributeError`, modelled
  with `Except PyErr`);
* the three per-provider normalizers `parse_tikwm_response`,
  `parse_tiklydown_response`, `parse_tikmate_response`;
* the provider resolver chain `get_tiktok_content` over abstract
  per-provider transport responses;
* the delivery-side logic of `handle_tiktok_url`: URL cleaning, the
  10-image album cap, caption construction, the degraded per-photo
  fallback, and the video fallback message.
-/

namespace TikTokBot

/-- Decoded JSON payload values, as Python sees them after `response.json()`. -/
inductive JSON where
  | null
  | bool (b : Bool)
  | num (n : Int)
  | str (s : String)
  | arr (xs : List JSON)
  | obj (kvs : List (String × JSON))

/-- Python exceptions that the embedded parsers can raise. -/
inductive PyErr where
  | attributeError
  deriving DecidableEq

/-- The normalized content value a parser produces (the dicts
`{"type": "slideshow", ...}` / `{"type": "video", ...}`).
`author` is `some _` exactly when the parser puts an `"author"` key
into its result dict (only TikWM does). -/
inductive Content where
  | slideshow (images : JSON) (title : JSON) (author : Option JSON)
  | video (videoUrl : JSON) (title : JSON)

/-- Python truthiness of a decoded JSON value. -/
def pyTruthy : JSON → Bool
  | JSON.null => false
  | JSON.bool b => b
  | JSON.num n => n != 0
  | JSON.str s => s != ""
  | JSON.arr xs => !xs.isEmpty
  | JSON.obj kvs => !kvs.isEmpty

/-- Python `x == 0` for a decoded JSON value (`False == 0` is true in Python). -/
def pyEqZero : JSON → Bool
  | JSON.num n => n == 0
  | JSON.bool b => !b
  | _ => false

/-- Python `x == "lit"` for a decoded JSON value. -/
def pyEqStr : JSON → String → Bool
  | JSON.str s, t => s == t
  | _, _ => false

/-- Helper for `parse_tikwm_response`: builds the slideshow result dict,
including `content.get("author", {}).get("nickname", "Unknown")`, which
raises `AttributeError` when the `author` value is not a dict. -/
def tikwmSlide (dkvs : List (String × JSON)) (imgs : JSON) :
    Except PyErr (Option Content) :=
  match (dkvs.lookup "author").getD (JSON.obj []) with
  | JSON.obj akvs =>
      Except.ok (some (Content.slideshow imgs
        ((dkvs.lookup "title").getD (JSON.str "TikTok Slideshow"))
        (some ((akvs.lookup "nickname").getD (JSON.str "Unknown")))))
  | _ => Except.error PyErr.attributeError

/-- Helper for `parse_tikwm_response`: the video branch
`content.get("hdplay") or content.get("play")`. -/
def tikwmVideo (dkvs : List (String × JSON)) : Except PyErr (Option Content) :=
  let vu := if pyTruthy ((dkvs.lookup "hdplay").getD JSON.null)
      then (dkvs.lookup "hdplay").getD JSON.null
      else (dkvs.lookup "play").getD JSON.null
  if pyTruthy vu then
    Except.ok (some (Content.video vu
      ((dkvs.lookup "title").getD (JSON.str "TikTok Video"))))
  else Except.ok none

/-- `parse_tikwm_response(data)` from `main.py`:
guards `isinstance(data, dict) and data.get("code") == 0 and data.get("data")`,
checks `images` before `hdplay`/`play`, coerces a bare-string `images`
to a one-element list, and returns `None` on shape mismatch. A non-dict
`data["data"]` (reached via `content.get`) raises `AttributeError`. -/
def parse_tikwm_response (data : JSON) : Except PyErr (Option Content) :=
  match data with
  | JSON.obj kvs =>
    if pyEqZero ((kvs.lookup "code").getD JSON.null)
        && pyTruthy ((kvs.lookup "data").getD JSON.null) then
      match (kvs.lookup "data").getD JSON.null with
      | JSON.obj dkvs =>
        match (dkvs.lookup "images").getD JSON.null with
        | JSON.str s =>
          if pyTruthy (JSON.str s) then
            tikwmSlide dkvs (JSON.arr [JSON.str s])
          else
            tikwmVideo dkvs
        | JSON.arr xs =>
          if pyTruthy (JSON.arr xs) then
            tikwmSlide dkvs (JSON.arr xs)
          else
            tikwmVideo dkvs
        | other =>
          if pyTruthy other then
            Except.ok none
          else
            tikwmVideo dkvs
      | _ => Except.error PyErr.attributeError
    else Except.ok none
  | _ => Except.ok none

/-- Helper for `parse_tiklydown_response`: the `videoUrl` check. -/
def tiklydownVideo (kvs : List (String × JSON)) : Except PyErr (Option Content) :=
  let vu := (kvs.lookup "videoUrl").getD JSON.null
  if pyTruthy vu then
    Except.ok (some (Content.video vu
      ((kvs.lookup "desc").getD (JSON.str "TikTok Video"))))
  else Except.ok none

/-- `parse_tiklydown_response(data)` from `main.py`: only dict payloads;
slideshow branch requires `type == "image"`, coerces a bare-string
`imageUrls` to a one-element list *before* the truthiness test, and an
empty/falsy image list falls through to the `videoUrl` check. All field
accesses are on the (dict) top level, so this parser never raises. -/
def parse_tiklydown_response (data : JSON) : Except PyErr (Option Content) :=
  match data with
  | JSON.obj kvs =>
    let images := match (kvs.lookup "imageUrls").getD (JSON.arr []) with
      | JSON.str s => JSON.arr [JSON.str s]
      | other => other
    if pyEqStr ((kvs.lookup "type").getD JSON.null) "image" then
      if pyTruthy images then
        Except.ok (some (Content.slideshow images
          ((kvs.lookup "desc").getD (JSON.str "TikTok Slideshow")) none))
      else tiklydownVideo kvs
    else tiklydownVideo kvs
  | _ => Except.ok none

/-- `parse_tikmate_response(data)` from `main.py`: only dict payloads;
requires a truthy `success`; `content = data.get("data", {})` raises
`AttributeError` when present but not a dict; truthy `images` are
coerced (bare string to one-element list) and returned as a slideshow;
otherwise `play` yields a video. -/
def parse_tikmate_response (data : JSON) : Except PyErr (Option Content) :=
  match data with
  | JSON.obj kvs =>
    if pyTruthy ((kvs.lookup "success").getD JSON.null) then
      match (kvs.lookup "data").getD (JSON.obj []) with
      | JSON.obj ckvs =>
        let images0 := (ckvs.lookup "images").getD (JSON.arr [])
        if pyTruthy images0 then
          Except.ok (some (Content.slideshow
            (match images0 with
             | JSON.str s => JSON.arr [JSON.str s]
             | other => other)
            ((ckvs.lookup "desc").getD (JSON.str "TikTok Slideshow")) none))
        else
          let pl := (ckvs.lookup "play").getD JSON.null
          if pyTruthy pl then
            Except.ok (some (Content.video pl
              ((ckvs.lookup "desc").getD (JSON.str "TikTok Video"))))
          else Except.ok none
      | _ => Except.error PyErr.attributeError
    else Except.ok none
  | _ => Except.ok none

/-! ## Provider resolver chain (`get_tiktok_content`) -/

/-- The three configured providers, in declared order. -/
inductive ProviderName where
  | tikwm
  | tiklydown
  | tikmate
  deriving DecidableEq

/-- The outcome of one provider's HTTP request, abstracting the transport:
either `requests.get` raised (`netFault`), or it returned a status code with
either a JSON-decoded body or `none` when `response.json()` raised. -/
inductive ProviderResponse where
  | netFault
  | httpStatus (code : Nat) (payload : Option JSON)

/-- The value `get_tiktok_content` returns: a parser's result dict, or the
final `{"success": False, "error": "All APIs failed"}` dict. -/
inductive ChainResult where
  | success (c : Content)
  | failure (error : String)

/-- One iteration of the loop in `get_tiktok_content`: a transport fault, a
non-200 status, a JSON-decode failure, a parser exception, or a `None`
parser result all yield `none` (log-and-continue); a truthy parser result
is surfaced. -/
def attempt_provider (parse : JSON → Except PyErr (Option Content)) :
    ProviderResponse → Option Content
  | ProviderResponse.netFault => none
  | ProviderResponse.httpStatus code payload =>
    if code = 200 then
      match payload with
      | none => none
      | some d =>
        match parse d with
        | Except.error _ => none
        | Except.ok r => r
    else none

/-- The `api_endpoints` list of `get_tiktok_content`, keeping declared
order: TikWM, then Tiklydown, then TikMate. -/
def api_endpoints : List (ProviderName × (JSON → Except PyErr (Option Content))) :=
  [(ProviderName.tikwm, parse_tikwm_response),
   (ProviderName.tiklydown, parse_tiklydown_response),
   (ProviderName.tikmate, parse_tikmate_response)]

/-- The provider loop of `get_tiktok_content`, also recording which
providers were actually invoked, in order. -/
def run_chain (apis : List (ProviderName × (JSON → Except PyErr (Option Content))))
    (rs : ProviderName → ProviderResponse) : List ProviderName × ChainResult :=
  match apis with
  | [] => ([], ChainResult.failure "All APIs failed")
  | (n, p) :: rest =>
    match attempt_provider p (rs n) with
    | some c => ([n], ChainResult.success c)
    | none => ((n :: (run_chain rest rs).1), (run_chain rest rs).2)

/-- `get_tiktok_content`, abstracted over the per-provider transport
responses for the given URL. -/
def get_tiktok_content (rs : ProviderName → ProviderResponse) : ChainResult :=
  (run_chain api_endpoints rs).2

/-- The providers `get_tiktok_content` actually invokes, in order. -/
def invoked_providers (rs : ProviderName → ProviderResponse) : List ProviderName :=
  (run_chain api_endpoints rs).1

/-! ## Handler-side delivery logic (`handle_tiktok_url`) -/

/-- Python `s[:n]` on a string. -/
def pyTake (s : String) (n : Nat) : String := String.mk (s.data.take n)

/-- `image_url.split('?')[0] if '?' in image_url else image_url`. -/
def clean_url (u : String) : String :=
  String.mk (u.data.takeWhile (fun c => c != '?'))

/-- The `❌ *Download Failed*` message `handle_tiktok_url` edits in when
`result["success"]` is false. -/
def download_failed_message (err : String) : String :=
  "❌ *Download Failed*\n\nError: " ++ err
    ++ "\n\n*Try:*\n• Check if the content is public\n• Try a different TikTok URL\n• The API might be temporarily down"

/-- The `👤 By: ...` line of the album caption, present iff
`result.get("author")` is truthy. -/
def authorLine : Option String → String
  | some a => "👤 By: " ++ a ++ "\n"
  | none => ""

/-- The first-item album caption, truncated to 1024 characters as in
`InputMediaPhoto(..., caption=caption[:1024])`. -/
def slideshow_caption (title : String) (author : Option String) (count : Nat) : String :=
  pyTake ("🖼️ " ++ title ++ "\n" ++ authorLine author
    ++ "📸 " ++ toString count ++ " photos\n\n📥 Downloaded via TikTok Bot") 1024

/-- One element of the media group handed to `reply_media_group`. -/
structure MediaItem where
  media : String
  caption : Option String

/-- The `media_group` loop: each URL is cleaned; only the first item
carries the caption. -/
def build_media_group (images : List String) (title : String)
    (author : Option String) : List MediaItem :=
  match images with
  | [] => []
  | first :: rest =>
    { media := clean_url first,
      caption := some (slideshow_caption title author (rest.length + 1)) }
      :: rest.map (fun u => { media := clean_url u, caption := none })

/-- The slideshow album path of `handle_tiktok_url`: the title is
truncated with `[:100]`, the image list capped with `[:10]`, then the
media group is built. -/
def handle_slideshow_album (rtitle : String) (images : List String)
    (author : Option String) : List MediaItem :=
  build_media_group (images.take 10) (pyTake rtitle 100) author

/-- Caption of the `i`-th photo in the degraded per-photo fallback. -/
def degraded_caption (title : String) (total : Nat) (i : Nat) : String :=
  if i = 0 then "🖼️ " ++ title ++ " (1/" ++ toString total ++ ")\n📥 TikTok Bot"
  else "🖼️ (" ++ toString (i + 1) ++ "/" ++ toString total ++ ")"

/-- The enumerate loop of the degraded path, carrying the running index.
Each attempted send is `(photo url, caption)`; the photo URL is the raw
`image_url`, not `clean_url image_url`. -/
def degraded_sends_from (title : String) (total : Nat) (i : Nat) :
    List String → List (String × String)
  | [] => []
  | u :: rest =>
    (u, degraded_caption title total i) :: degraded_sends_from title total (i + 1) rest

/-- The degraded per-photo fallback of `handle_tiktok_url`: iterates
`enumerate(images[:5])` with totals `min(len(images), 5)`. -/
def degraded_sends (images : List String) (title : String) : List (String × String) :=
  degraded_sends_from title (min images.length 5) 0 (images.take 5)

/-- `sent_count` after the degraded loop, given which attempts the
transport accepted. -/
def sent_count (attempts : Nat) (ok : Nat → Bool) : Nat :=
  ((List.range attempts).filter ok).length

/-- The final status-message edit after the degraded loop. -/
def degraded_final_message (sent : Nat) : String :=
  if 0 < sent then "✅ Sent " ++ toString sent ++ " images!"
  else "❌ Could not send any images"

/-- ASCII-lowercasing, for case-insensitive containment statements. -/
def asciiLower (s : String) : String :=
  String.mk (s.data.map (fun c =>
    if 'A' ≤ c ∧ c ≤ 'Z' then Char.ofNat (c.toNat + 32) else c))

/-- The outcome of the video branch of `handle_tiktok_url`. -/
inductive VideoOutcome where
  | sentVideo (url : String) (caption : String)
  | editedFallback (text : String)

/-- The caption of a successful `reply_video`. -/
def video_caption (title : String) : String :=
  "🎬 " ++ title ++ "\n📥 Downloaded via TikTok Bot"

/-- The fallback text edited into the status message when `reply_video`
raises: truncated title plus the first 50 characters of the direct URL. -/
def video_fallback_text (title video_url : String) : String :=
  "✅ *Video Downloaded!*\n\n📹 *Title:* " ++ title
    ++ "\n🔗 *Direct Link:* " ++ pyTake video_url 50
    ++ "...\n\n⚠️ Could not send via Telegram\nCopy the link above to download"

/-- The video branch of `handle_tiktok_url`: truncate the title, try the
send; on transport failure edit the status message to the fallback text. -/
def handle_video (rtitle video_url : String) (sendOk : Bool) : VideoOutcome :=
  let title := pyTake rtitle 100
  if sendOk then VideoOutcome.sentVideo video_url (video_caption title)
  else VideoOutcome.editedFallback (video_fallback_text title video_url)

/-! ## Concrete inputs used by witnesses and counterexamples -/

/-- A valid TikMate payload: one image and a `play` video URL. -/
def tikmate_payload : JSON :=
  JSON.obj [("success", JSON.bool true),
            ("data", JSON.obj [("images", JSON.arr [JSON.str "https://x.test/a.jpg"]),
                               ("play", JSON.str "https://x.test/v.mp4")])]

/-- Transport responses where TikWM faults, Tiklydown returns HTTP 500,
and TikMate answers 200 with a valid payload. -/
def rs_third_succeeds : ProviderName → ProviderResponse
  | ProviderName.tikwm => ProviderResponse.netFault
  | ProviderName.tiklydown => ProviderResponse.httpStatus 500 none
  | ProviderName.tikmate => ProviderResponse.httpStatus 200 (some tikmate_payload)

/-- Transport responses where every provider times out. -/
def rs_all_fault : ProviderName → ProviderResponse := fun _ => ProviderResponse.netFault

/-- A TikWM `data` dict with both `images` and `hdplay` populated. -/
def tikwm_both_dkvs : List (String × JSON) :=
  [("images", JSON.arr [JSON.str "i1", JSON.str "i2"]),
   ("hdplay", JSON.str "v"),
   ("title", JSON.str "T"),
   ("author", JSON.obj [("nickname", JSON.str "A")])]

/-- A TikWM payload whose `data.author` is a string rather than a dict. -/
def tikwm_author_string_payload : JSON :=
  JSON.obj [("code", JSON.num 0),
            ("data", JSON.obj [("images", JSON.arr [JSON.str "http://x/1.jpg"]),
                               ("author", JSON.str "bob")])]

/-- A 101-character title. -/
def longTitle : String := String.mk (List.replicate 101 'a')

/-- A TikWM slideshow payload whose title has 101 characters. -/
def tikwm_long_title_payload : JSON :=
  JSON.obj [("code", JSON.num 0),
            ("data", JSON.obj [("images", JSON.arr [JSON.str "u"]),
                               ("title", JSON.str longTitle)])]

/-- An image URL carrying a tracking query string. -/
def trackedUrl : String := "https://x.test/a.jpg?tracking=1"

/-- The single media item the album path builds for `[trackedUrl]`. -/
def tracked_item : MediaItem :=
  { media := clean_url trackedUrl,
    caption := some (slideshow_caption (pyTake "T" 100) none 1) }

/-- Eleven image URLs, one more than the album cap. -/
def urls11 : List String :=
  ["u1", "u2", "u3", "u4", "u5", "u6", "u7", "u8", "u9", "u10", "u11"]

/-- Seven image URLs, for exercising the degraded per-photo path. -/
def urls7 : List String := ["a", "b", "c", "d", "e", "f", "g"]

end TikTokBot

namespace TikTokBot

/-! ## Shared helper lemmas -/

theorem data_append (a b : String) : (a ++ b).data = a.data ++ b.data := rfl

theorem lookup_isEmpty_eq_false {l : List (String × JSON)} {k : String} {v : JSON}
    (h : l.lookup k = some v) : l.isEmpty = false := by
  cases l with
  | nil => simp [List.lookup] at h
  | cons a t => rfl

theorem isEmpty_eq_false_of_ne_nil {α} {l : List α} (h : l ≠ []) :
    l.isEmpty = false := by
  cases l with
  | nil => exact absurd rfl h
  | cons a t => rfl

/-! ## Claim theorems -/

/-- C1: the resolver chain tries TikWM, then Tiklydown, then TikMate, in
that order; transport faults, non-200 statuses, JSON-decode failures,
parser exceptions and `None` parser results all continue to the next
provider without being fatal; the first provider whose normalizer yields
a non-null result determines the `Success` outcome and no later provider
is invoked. -/
theorem C1_resolver_chain_order (rs : ProviderName → ProviderResponse) :
    (∀ f, attempt_provider f ProviderResponse.netFault = none)
    ∧ (∀ f code pl, code ≠ 200 →
        attempt_provider f (ProviderResponse.httpStatus code pl) = none)
    ∧ (∀ f, attempt_provider f (ProviderResponse.httpStatus 200 none) = none)
    ∧ (∀ f d e, f d = Except.error e →
        attempt_provider f (ProviderResponse.httpStatus 200 (some d)) = none)
    ∧ (∀ f d, f d = Except.ok none →
        attempt_provider f (ProviderResponse.httpStatus 200 (some d)) = none)
    ∧ (∀ c, attempt_provider parse_tikwm_response (rs ProviderName.tikwm) = some c →
        get_tiktok_content rs = ChainResult.success c
        ∧ invoked_providers rs = [ProviderName.tikwm])
    ∧ (attempt_provider parse_tikwm_response (rs ProviderName.tikwm) = none →
        ∀ c, attempt_provider parse_tiklydown_response (rs ProviderName.tiklydown) = some c →
        get_tiktok_content rs = ChainResult.success c
        ∧ invoked_providers rs = [ProviderName.tikwm, ProviderName.tiklydown])
    ∧ (attempt_provider parse_tikwm_response (rs ProviderName.tikwm) = none →
        attempt_provider parse_tiklydown_response (rs ProviderName.tiklydown) = none →
        ∀ c, attempt_provider parse_tikmate_response (rs ProviderName.tikmate) = some c →
        get_tiktok_content rs = ChainResult.success c
        ∧ invoked_providers rs
            = [ProviderName.tikwm, ProviderName.tiklydown, ProviderName.tikmate]) := by
  refine ⟨?_, ?_, ?_, ?_, ?_, ?_, ?_, ?_⟩
  · intro f; rfl
  · intro f code pl h; simp [attempt_provider, h]
  · intro f; rfl
  · intro f d e h; simp [attempt_provider, h]
  · intro f d h; simp [attempt_provider, h]
  · intro c h
    constructor <;>
      simp [get_tiktok_content, invoked_providers, run_chain, api_endpoints, h]
  · intro h1 c h2
    constructor <;>
      simp [get_tiktok_content, invoked_providers, run_chain, api_endpoints, h1, h2]
  · intro h1 h2 c h3
    constructor <;>
      simp [get_tiktok_content, invoked_providers, run_chain, api_endpoints, h1, h2, h3]

/-- Witness for C1 at concrete transport responses: the first two
providers fail, the third succeeds, the chain succeeds with the third
provider's normalization after trying all three in order. -/
theorem C1_resolver_chain_order_witness :
    get_tiktok_content rs_third_succeeds
      = ChainResult.success (Content.slideshow (JSON.arr [JSON.str "https://x.test/a.jpg"])
          (JSON.str "TikTok Slideshow") none)
    ∧ invoked_providers rs_third_succeeds
      = [ProviderName.tikwm, ProviderName.tiklydown, ProviderName.tikmate] :=
  (C1_resolver_chain_order rs_third_succeeds).2.2.2.2.2.2.2 rfl rfl _ rfl

set_option maxRecDepth 10000 in
/-- C2: when every provider attempt fails, the chain returns the failure
dict with error `"All APIs failed"`, and the user-visible message built
from it contains the word "Failed" and the guidance text, not a fault
trace. -/
theorem C2_all_providers_errored (rs : ProviderName → ProviderResponse)
    (h1 : attempt_provider parse_tikwm_response (rs ProviderName.tikwm) = none)
    (h2 : attempt_provider parse_tiklydown_response (rs ProviderName.tiklydown) = none)
    (h3 : attempt_provider parse_tikmate_response (rs ProviderName.tikmate) = none) :
    get_tiktok_content rs = ChainResult.failure "All APIs failed"
    ∧ List.IsInfix "Failed".data (download_failed_message "All APIs failed").data
    ∧ List.IsInfix "Try a different TikTok URL".data
        (download_failed_message "All APIs failed").data := by
  refine ⟨?_, ?_, ?_⟩
  · simp [get_tiktok_content, run_chain, api_endpoints, h1, h2, h3]
  · decide
  · decide

/-- Witness for C2: with all three providers timing out, the chain
returns the `"All APIs failed"` failure and the message checks hold. -/
theorem C2_all_providers_errored_witness :
    get_tiktok_content rs_all_fault = ChainResult.failure "All APIs failed"
    ∧ List.IsInfix "Failed".data (download_failed_message "All APIs failed").data
    ∧ List.IsInfix "Try a different TikTok URL".data
        (download_failed_message "All APIs failed").data :=
  C2_all_providers_errored rs_all_fault rfl rfl rfl

/-- `tikwmSlide` never produces a video result. -/
theorem tikwmSlide_ne_video (dkvs : List (String × JSON)) (im u t : JSON) :
    tikwmSlide dkvs im ≠ Except.ok (some (Content.video u t)) := by
  unfold tikwmSlide
  split <;> simp

/-- C3: in every parser, slideshow detection takes precedence over video
detection. For TikWM: with `images` a non-empty list and `hdplay`
populated, the result is the slideshow (with a dict-shaped `author` so
the nickname access succeeds), and whenever `images` is truthy the
result is never a video. For Tiklydown and TikMate the analogous
precedence holds for their image fields (`imageUrls` resp. `images`)
against their video fields (`videoUrl` resp. `play`). -/
theorem C3_slideshow_precedence :
    (∀ dkvs imgs hd akvs, dkvs.lookup "images" = some (JSON.arr imgs) → imgs ≠ [] →
      dkvs.lookup "hdplay" = some hd → pyTruthy hd = true →
      dkvs.lookup "author" = some (JSON.obj akvs) →
      parse_tikwm_response (JSON.obj [("code", JSON.num 0), ("data", JSON.obj dkvs)])
        = Except.ok (some (Content.slideshow (JSON.arr imgs)
            ((dkvs.lookup "title").getD (JSON.str "TikTok Slideshow"))
            (some ((akvs.lookup "nickname").getD (JSON.str "Unknown"))))))
    ∧ (∀ dkvs imgs u t, dkvs.lookup "images" = some imgs → pyTruthy imgs = true →
      parse_tikwm_response (JSON.obj [("code", JSON.num 0), ("data", JSON.obj dkvs)])
        ≠ Except.ok (some (Content.video u t)))
    ∧ (∀ kvs imgs vu, kvs.lookup "type" = some (JSON.str "image") →
      kvs.lookup "imageUrls" = some (JSON.arr imgs) → imgs ≠ [] →
      kvs.lookup "videoUrl" = some vu → pyTruthy vu = true →
      parse_tiklydown_response (JSON.obj kvs)
        = Except.ok (some (Content.slideshow (JSON.arr imgs)
            ((kvs.lookup "desc").getD (JSON.str "TikTok Slideshow")) none)))
    ∧ (∀ kvs ckvs imgs pl, kvs.lookup "success" = some (JSON.bool true) →
      kvs.lookup "data" = some (JSON.obj ckvs) →
      ckvs.lookup "images" = some (JSON.arr imgs) → imgs ≠ [] →
      ckvs.lookup "play" = some pl → pyTruthy pl = true →
      parse_tikmate_response (JSON.obj kvs)
        = Except.ok (some (Content.slideshow (JSON.arr imgs)
            ((ckvs.lookup "desc").getD (JSON.str "TikTok Slideshow")) none))) := by
  refine ⟨?_, ?_, ?_, ?_⟩
  · intro dkvs imgs hd akvs hi hne hhd hhdt ha
    have e1 : dkvs.isEmpty = false := lookup_isEmpty_eq_false hi
    have e2 : imgs.isEmpty = false := isEmpty_eq_false_of_ne_nil hne
    simp [parse_tikwm_response, List.lookup, pyEqZero, pyTruthy, e1, e2, hi,
      tikwmSlide, ha]
  · intro dkvs imgs u t hi htr
    have e1 : dkvs.isEmpty = false := lookup_isEmpty_eq_false hi
    cases imgs <;>
      simp_all [parse_tikwm_response, List.lookup, pyEqZero, pyTruthy,
        tikwmSlide_ne_video]
  · intro kvs imgs vu hty hiu hne hvu hvut
    have e2 : imgs.isEmpty = false := isEmpty_eq_false_of_ne_nil hne
    simp [parse_tiklydown_response, hty, hiu, e2, pyEqStr, pyTruthy]
  · intro kvs ckvs imgs pl hs hd hi hne hpl hplt
    have e2 : imgs.isEmpty = false := isEmpty_eq_false_of_ne_nil hne
    simp [parse_tikmate_response, hs, hd, hi, e2, pyTruthy]

/-- Witness for C3 at a concrete TikWM payload with both `images` and
`hdplay` populated: the parser selects the slideshow. -/
theorem C3_slideshow_precedence_witness :
    parse_tikwm_response (JSON.obj [("code", JSON.num 0), ("data", JSON.obj tikwm_both_dkvs)])
      = Except.ok (some (Content.slideshow (JSON.arr [JSON.str "i1", JSON.str "i2"])
          (JSON.str "T") (some (JSON.str "A")))) :=
  C3_slideshow_precedence.1 tikwm_both_dkvs _ _ _ rfl (List.cons_ne_nil _ _) rfl rfl rfl

/-- C4: the TikWM normalizer is not total: on a payload whose
`data.author` is a string, the access
`content.get("author", {}).get("nickname", "Unknown")` raises
`AttributeError` instead of treating the malformed field as a
normalization failure. -/
theorem C4_tikwm_author_raises :
    parse_tikwm_response tikwm_author_string_payload
      = Except.error PyErr.attributeError := rfl

/-- A middle segment survives `take n` of the surrounding list when the
prefix and the segment fit within `n`. -/
theorem take_middle {α : Type} (pre mid post : List α) (n : Nat)
    (h : pre.length + mid.length ≤ n) :
    List.IsInfix mid ((pre ++ (mid ++ post)).take n) := by
  refine ⟨pre, post.take (n - pre.length - mid.length), ?_⟩
  have e : (pre ++ (mid ++ post)).take n
      = pre ++ (mid ++ post.take (n - pre.length - mid.length)) := by
    rw [List.take_append_eq_append_take, List.take_append_eq_append_take,
      List.take_of_length_le (by omega : pre.length ≤ n),
      List.take_of_length_le (by omega : mid.length ≤ n - pre.length)]
  rw [e]
  simp [List.append_assoc]

/-- Counterexample to C5: the normalizers do not truncate titles. The
TikWM parser emits a 101-character title unchanged in its result. -/
theorem C5_counterexample :
    parse_tikwm_response tikwm_long_title_payload
      = Except.ok (some (Content.slideshow (JSON.arr [JSON.str "u"])
          (JSON.str longTitle) (some (JSON.str "Unknown"))))
    ∧ longTitle.length = 101 := ⟨rfl, rfl⟩

/-- C5 (amended): the normalizers substitute a fixed default title when
the field is absent but emit the title untruncated; the URL handler
truncates the title to 100 characters with `[:100]`, so any title of at
least 100 characters appears as exactly its first 100 characters in the
emitted album caption. -/
theorem C5_title_truncation :
    (∀ dkvs imgs, dkvs.lookup "images" = some (JSON.arr imgs) → imgs ≠ [] →
      dkvs.lookup "title" = none → dkvs.lookup "author" = none →
      parse_tikwm_response (JSON.obj [("code", JSON.num 0), ("data", JSON.obj dkvs)])
        = Except.ok (some (Content.slideshow (JSON.arr imgs)
            (JSON.str "TikTok Slideshow") (some (JSON.str "Unknown")))))
    ∧ (∀ rtitle author count, 100 ≤ rtitle.length →
      (pyTake rtitle 100).length = 100
      ∧ List.IsInfix (pyTake rtitle 100).data
          (slideshow_caption (pyTake rtitle 100) author count).data) := by
  constructor
  · intro dkvs imgs hi hne ht ha
    have e1 : dkvs.isEmpty = false := lookup_isEmpty_eq_false hi
    have e2 : imgs.isEmpty = false := isEmpty_eq_false_of_ne_nil hne
    simp [parse_tikwm_response, List.lookup, pyEqZero, pyTruthy, e1, e2, hi,
      tikwmSlide, ht, ha]
  · intro rtitle author count h
    have hlen : (pyTake rtitle 100).length = 100 := by
      show (rtitle.data.take 100).length = 100
      rw [List.length_take]
      have : 100 ≤ rtitle.data.length := h
      omega
    refine ⟨hlen, ?_⟩
    have base := take_middle "🖼️ ".data (pyTake rtitle 100).data
      ("\n" ++ authorLine author ++ "📸 " ++ toString count
        ++ " photos\n\n📥 Downloaded via TikTok Bot").data 1024
      (by
        have : (pyTake rtitle 100).length = 100 := hlen
        have h3 : ("🖼️ ".data).length = 3 := rfl
        show ("🖼️ ".data).length + ((pyTake rtitle 100).data).length ≤ 1024
        have : ((pyTake rtitle 100).data).length = 100 := hlen
        omega)
    simpa [slideshow_caption, pyTake, data_append, List.append_assoc] using base

/-- Witness for C5 (amended) at the concrete 101-character title: the
handler-truncated title has exactly 100 characters and appears in the
album caption. -/
theorem C5_title_truncation_witness :
    (pyTake longTitle 100).length = 100
    ∧ List.IsInfix (pyTake longTitle 100).data
        (slideshow_caption (pyTake longTitle 100) none 2).data :=
  C5_title_truncation.2 longTitle none 2 (by decide)

/-- `clean_url` leaves no `'?'` in its output. -/
theorem clean_url_no_query (u : String) : ('?' : Char) ∉ (clean_url u).data := by
  intro hmem
  have hp := List.mem_takeWhile_imp (by simpa [clean_url] using hmem)
  simp at hp

/-- Every item of a built media group has a `clean_url`-cleaned URL. -/
theorem mem_build_media_group {images : List String} {title : String}
    {author : Option String} {item : MediaItem}
    (h : item ∈ build_media_group images title author) :
    ∃ u, item.media = clean_url u := by
  cases images with
  | nil => simp [build_media_group] at h
  | cons f r =>
    simp [build_media_group] at h
    rcases h with h | ⟨u, _, hu⟩
    · exact ⟨f, by rw [h]⟩
    · exact ⟨u, by rw [← hu]⟩

/-- The degraded path attempts exactly the listed URLs, unmodified. -/
theorem degraded_sends_from_map_fst (title : String) (total i : Nat)
    (l : List String) :
    (degraded_sends_from title total i l).map Prod.fst = l := by
  induction l generalizing i with
  | nil => rfl
  | cons u rest ih => simp [degraded_sends_from, ih]

/-- Counterexample to C6: the degraded per-photo path hands the raw URL,
query string included, to the transport layer. -/
theorem C6_counterexample :
    (degraded_sends [trackedUrl] "T").map Prod.fst = [trackedUrl]
    ∧ ('?' : Char) ∈ trackedUrl.data := ⟨rfl, by decide⟩

/-- C6 (amended): on the album path every URL handed to the transport
layer is stripped of its query-string suffix (no `'?'` remains); the
degraded per-photo path, by contrast, passes the original image URLs
unmodified. -/
theorem C6_album_urls_stripped (rtitle : String) (images : List String)
    (author : Option String) :
    (∀ item, item ∈ handle_slideshow_album rtitle images author →
      ('?' : Char) ∉ item.media.data)
    ∧ (degraded_sends images (pyTake rtitle 100)).map Prod.fst = images.take 5 := by
  constructor
  · intro item hmem
    obtain ⟨u, hu⟩ := mem_build_media_group hmem
    rw [hu]
    exact clean_url_no_query u
  · exact degraded_sends_from_map_fst _ _ _ _

/-- Witness for C6 (amended): for a URL with a tracking query string, the
album path's item contains no `'?'`. -/
theorem C6_album_urls_stripped_witness :
    tracked_item ∈ handle_slideshow_album "T" [trackedUrl] none
    ∧ ('?' : Char) ∉ tracked_item.media.data :=
  ⟨List.mem_cons_self tracked_item [],
   (C6_album_urls_stripped "T" [trackedUrl] none).1 tracked_item
     (List.mem_cons_self tracked_item [])⟩

/-- A built media group has one item per image. -/
theorem build_media_group_length (images : List String) (t : String)
    (a : Option String) :
    (build_media_group images t a).length = images.length := by
  cases images <;> simp [build_media_group]

/-- The media URLs of a built media group, in order. -/
theorem build_media_group_map_media (images : List String) (t : String)
    (a : Option String) :
    (build_media_group images t a).map MediaItem.media = images.map clean_url := by
  cases images <;> simp [build_media_group]

/-- C7: for more than 10 images the album is capped to exactly 10 items,
the cleaned first 10 URLs in their original order. -/
theorem C7_album_cap (rtitle : String) (images : List String)
    (author : Option String) (h : 10 < images.length) :
    (handle_slideshow_album rtitle images author).length = 10
    ∧ (handle_slideshow_album rtitle images author).map MediaItem.media
        = (images.take 10).map clean_url := by
  constructor
  · rw [handle_slideshow_album, build_media_group_length, List.length_take]
    omega
  · rw [handle_slideshow_album, build_media_group_map_media]

/-- Witness for C7 at eleven concrete URLs: the album has exactly 10
items, the first 10 URLs in order. -/
theorem C7_album_cap_witness :
    (handle_slideshow_album "T" urls11 none).length = 10
    ∧ (handle_slideshow_album "T" urls11 none).map MediaItem.media
        = (urls11.take 10).map clean_url :=
  C7_album_cap "T" urls11 none (by decide)

/-- The degraded path attempts one send per listed URL. -/
theorem degraded_sends_from_length (title : String) (total i : Nat)
    (l : List String) :
    (degraded_sends_from title total i l).length = l.length := by
  induction l generalizing i with
  | nil => rfl
  | cons u rest ih => simp [degraded_sends_from, ih]

/-- The caption of the `j`-th attempted send. -/
theorem degraded_sends_from_get (title : String) (total i : Nat)
    (l : List String) (j : Nat)
    (h : j < (degraded_sends_from title total i l).length) :
    ((degraded_sends_from title total i l).get ⟨j, h⟩).2
      = degraded_caption title total (i + j) := by
  induction l generalizing i j with
  | nil => simp [degraded_sends_from] at h
  | cons u rest ih =>
    cases j with
    | zero => simp [degraded_sends_from]
    | succ j' =>
      have e : i + (j' + 1) = (i + 1) + j' := by omega
      rw [e]
      exact ih (i + 1) j' (by
        simpa [degraded_sends_from_length] using
          Nat.lt_of_succ_lt_succ (by simpa [degraded_sends_from_length] using h))

/-- Each degraded caption carries its `(index/total)` numbering. -/
theorem degraded_caption_numbering (title : String) (total i : Nat) :
    List.IsInfix ("(" ++ toString (i + 1) ++ "/" ++ toString total ++ ")").data
      (degraded_caption title total i).data := by
  rw [degraded_caption]
  by_cases h : i = 0
  · subst h
    refine ⟨"🖼️ ".data ++ title.data ++ " ".data, "\n📥 TikTok Bot".data, ?_⟩
    have h1 : (" (1/" : String).data
        = " ".data ++ ("(".data ++ "1".data ++ "/".data) := rfl
    have h2 : (")\n📥 TikTok Bot" : String).data
        = ")".data ++ "\n📥 TikTok Bot".data := rfl
    have h3 : (toString (0 + 1) : String) = "1" := rfl
    simp [data_append, List.append_assoc, h1, h2, h3]
  · rw [if_neg h]
    refine ⟨"🖼️ ".data, [], ?_⟩
    have h1 : ("🖼️ (" : String).data = "🖼️ ".data ++ "(".data := rfl
    simp [data_append, List.append_assoc, h1]

/-- C8: the degraded path attempts at most 5 per-photo sends (one per
image up to 5), numbers each caption `(index/total)`, surfaces a final
message containing "could not send any images" when no degraded send
succeeds, and otherwise a success message reporting the number sent. -/
theorem C8_degraded_path (images : List String) (title : String)
    (ok : Nat → Bool) :
    (degraded_sends images title).length = min images.length 5
    ∧ (degraded_sends images title).length ≤ 5
    ∧ (∀ j h, ((degraded_sends images title).get ⟨j, h⟩).2
        = degraded_caption title (min images.length 5) j)
    ∧ (∀ j h, List.IsInfix
        ("(" ++ toString (j + 1) ++ "/" ++ toString (min images.length 5) ++ ")").data
        (((degraded_sends images title).get ⟨j, h⟩).2).data)
    ∧ (sent_count (degraded_sends images title).length ok = 0 →
        List.IsInfix "could not send any images".data
          (asciiLower (degraded_final_message
            (sent_count (degraded_sends images title).length ok))).data)
    ∧ (∀ n, 0 < n →
        degraded_final_message n = "✅ Sent " ++ toString n ++ " images!") := by
  have hlen : (degraded_sends images title).length = min images.length 5 := by
    rw [degraded_sends, degraded_sends_from_length, List.length_take]
    omega
  have hget : ∀ j h, ((degraded_sends images title).get ⟨j, h⟩).2
      = degraded_caption title (min images.length 5) j := by
    intro j h
    have := degraded_sends_from_get title (min images.length 5) 0 (images.take 5) j h
    simpa [degraded_sends] using this
  refine ⟨hlen, ?_, hget, ?_, ?_, ?_⟩
  · rw [hlen]; omega
  · intro j h
    rw [hget j h]
    exact degraded_caption_numbering title (min images.length 5) j
  · intro h
    rw [h]
    decide
  · intro n hn
    simp [degraded_final_message, hn]

/-- Witness for C8 at seven URLs with every degraded send rejected: the
second caption is numbered, the final message (lowercased) contains
"could not send any images", and a positive count yields the success
message. -/
theorem C8_degraded_path_witness :
    ((degraded_sends urls7 "T").get ⟨1, by decide⟩).2 = degraded_caption "T" 5 1
    ∧ List.IsInfix "could not send any images".data
        (asciiLower (degraded_final_message
          (sent_count (degraded_sends urls7 "T").length (fun _ => false)))).data
    ∧ degraded_final_message 3 = "✅ Sent " ++ toString 3 ++ " images!" :=
  ⟨(C8_degraded_path urls7 "T" (fun _ => false)).2.2.1 1 (by decide),
   (C8_degraded_path urls7 "T" (fun _ => false)).2.2.2.2.1 rfl,
   (C8_degraded_path urls7 "T" (fun _ => false)).2.2.2.2.2 3 (by decide)⟩

/-- C10: when the video send fails, the handler edits the status message
to a fallback text that contains the truncated (100-character) title and
the first 50 characters of the direct video URL — it neither raises nor
drops the request silently. -/
theorem C10_video_fallback (rtitle video_url : String) :
    handle_video rtitle video_url false
      = VideoOutcome.editedFallback (video_fallback_text (pyTake rtitle 100) video_url)
    ∧ List.IsInfix (pyTake rtitle 100).data
        (video_fallback_text (pyTake rtitle 100) video_url).data
    ∧ List.IsInfix (pyTake video_url 50).data
        (video_fallback_text (pyTake rtitle 100) video_url).data := by
  refine ⟨rfl, ?_, ?_⟩
  · refine ⟨"✅ *Video Downloaded!*\n\n📹 *Title:* ".data,
      ("\n🔗 *Direct Link:* " ++ pyTake video_url 50
        ++ "...\n\n⚠️ Could not send via Telegram\nCopy the link above to download").data, ?_⟩
    simp [video_fallback_text, data_append, List.append_assoc]
  · refine ⟨("✅ *Video Downloaded!*\n\n📹 *Title:* " ++ pyTake rtitle 100
        ++ "\n🔗 *Direct Link:* ").data,
      "...\n\n⚠️ Could not send via Telegram\nCopy the link above to download".data, ?_⟩
    simp [video_fallback_text, data_append, List.append_assoc]

/-- C9: when the image field arrives as a bare non-empty string, the
normalizer coerces it to a one-element list equal to that string. For
TikWM this is the `images` field (with `author` absent so the nickname
default applies); for Tiklydown the `imageUrls` field of a `type ==
"image"` payload. -/
theorem C9_bare_string_images :
    (∀ dkvs s, dkvs.lookup "images" = some (JSON.str s) → s ≠ "" →
      dkvs.lookup "author" = none →
      parse_tikwm_response (JSON.obj [("code", JSON.num 0), ("data", JSON.obj dkvs)])
        = Except.ok (some (Content.slideshow (JSON.arr [JSON.str s])
            ((dkvs.lookup "title").getD (JSON.str "TikTok Slideshow"))
            (some (JSON.str "Unknown")))))
    ∧ (∀ kvs s, kvs.lookup "type" = some (JSON.str "image") →
      kvs.lookup "imageUrls" = some (JSON.str s) →
      parse_tiklydown_response (JSON.obj kvs)
        = Except.ok (some (Content.slideshow (JSON.arr [JSON.str s])
            ((kvs.lookup "desc").getD (JSON.str "TikTok Slideshow")) none))) := by
  constructor
  · intro dkvs s hi hs ha
    have e1 : dkvs.isEmpty = false := lookup_isEmpty_eq_false hi
    have e3 : (s != "") = true := bne_iff_ne.mpr hs
    simp [parse_tikwm_response, List.lookup, pyEqZero, pyTruthy, e1, hi, e3,
      tikwmSlide, ha]
  · intro kvs s hty hiu
    simp [parse_tiklydown_response, hty, hiu, pyEqStr, pyTruthy]

/-- Witness for C9 at a concrete bare-string `images` field: the TikWM
normalizer returns a one-element slideshow list. -/
theorem C9_bare_string_images_witness :
    parse_tikwm_response (JSON.obj [("code", JSON.num 0),
        ("data", JSON.obj [("images", JSON.str "https://x.test/p.jpg")])])
      = Except.ok (some (Content.slideshow (JSON.arr [JSON.str "https://x.test/p.jpg"])
          (JSON.str "TikTok Slideshow") (some (JSON.str "Unknown")))) :=
  C9_bare_string_images.1 [("images", JSON.str "https://x.test/p.jpg")] _ rfl
    (by decide) rfl

end TikTokBot
